import Mathlib

set_option autoImplicit false

/-!
Verification of the `StandardRelayerAPIOrderProvider` adapter
(`packages/asset-swapper/src/order_providers/standard_relayer_api_order_provider.ts`).

The adapter queries a remote standard-relayer-api order book, normalizes the
returned `APIOrder` records into `SignedOrderWithRemainingFillableMakerAssetAmount`
values, and offers asset-pair discovery.  External collaborators (the HTTP
client, `orderCalculationUtils`, the `assert` helpers, `constants`) are not part
of the embedded source; where a claim depends on one, that part is modelled
from the specification and marked as such in its doc comment.

Asset amounts are arbitrary-precision decimals (`BigNumber`); they are embedded
as `Int` (the claims only involve integer quantities).  The asynchronous remote
calls are embedded by passing the outcome of the client call as an explicit
function argument of type `Except TransportFailure _`, and the requests a
function issues are returned as an explicit trace list alongside its result.
-/

namespace SRAOrderProvider

/-- A cause of failure of the underlying remote call (network transport layer).
The adapter never inspects the cause, only catches it. -/
inductive TransportFailure
  | networkError
  | httpStatus (status : Nat)
  | malformedJson
  | timeout
  deriving Repr, DecidableEq

/-- The errors the adapter itself raises.  `standardRelayerApiError` embeds
`new Error(SwapQuoterError.StandardRelayerApiError)`; the two other kinds embed
the `assert`-raised configuration and request validation failures. -/
inductive AdapterError
  | invalidConfiguration
  | invalidRequest
  | standardRelayerApiError
  deriving Repr, DecidableEq

/-- The fields of a signed 0x order that the adapter reads or passes through.
Only `makerAssetAmount` and `takerAssetAmount` are inspected by the adapter;
the remaining fields stand for the untouched rest of the order. -/
structure SignedOrder where
  makerAddress : String
  makerAssetData : String
  takerAssetData : String
  makerAssetAmount : Int
  takerAssetAmount : Int
  deriving Repr, DecidableEq

/-- An `APIOrder`: a signed order together with opaque `metaData`, a JSON
object embedded as an association list from keys to string values (the source
reads a single key and casts it `as string | undefined`). -/
structure APIOrder where
  order : SignedOrder
  metaData : List (String × String)
  deriving Repr, DecidableEq

/-- The canonical order: the original order plus the derived
`remainingFillableMakerAssetAmount` field (the source spreads the order fields
and adds the new field; holding the order as a sub-record is equivalent). -/
structure SignedOrderWithRemainingFillableMakerAssetAmount where
  order : SignedOrder
  remainingFillableMakerAssetAmount : Int
  deriving Repr, DecidableEq

/-- Embedding of `_.get metaData key`: property lookup on a JS object, `undefined` when the
key is absent, embedded as association-list lookup. -/
def lodashGet (metaData : List (String × String)) (key : String) : Option String :=
  (metaData.find? (fun p => p.1 = key)).map Prod.snd

/-- Helper for the decimal parser: value of a non-empty run of decimal digits,
`none` on an empty run or a non-digit character. -/
def parseDecDigits (cs : List Char) : Option Nat :=
  if cs.isEmpty then none
  else cs.foldl
    (fun acc c => acc.bind (fun n => if c.isDigit then some (n * 10 + (c.toNat - 48)) else none))
    (some 0)

/-- Modelled from the spec: `new BigNumber s` on a decimal-string quantity —
an optional minus sign followed by decimal digits; `none` models the NaN that
`BigNumber` yields on a string outside that domain. -/
def parseBigNumber (s : String) : Option Int :=
  match s.data with
  | '-' :: rest => (parseDecDigits rest).map (fun n => -(n : Int))
  | cs => (parseDecDigits cs).map (fun n => (n : Int))

/-- The integer a metadata decimal-string quantity denotes; strings outside the
modelled domain default to 0 (well-formedness hypotheses exclude them). -/
def bigNumberOfString (s : String) : Int :=
  (parseBigNumber s).getD 0

/-- Modelled from the spec: `orderCalculationUtils.getMakerFillAmount` of the
external `@0x/order-utils` collaborator —
`remainingMaker = floor(remainingTaker * order.makerAssetAmount / order.takerAssetAmount)`,
rounding down.  `Int.fdiv` is floor division. -/
def getMakerFillAmount (order : SignedOrder) (takerFillAmount : Int) : Int :=
  Int.fdiv (takerFillAmount * order.makerAssetAmount) order.takerAssetAmount

/-- The body of the `_.map` lambda in
`_getSignedOrderWithRemainingFillableMakerAssetAmountFromApi`: reads
`metaData.remainingTakerAssetAmount`; on a truthy value (in JS a string is
truthy iff it is non-empty) that value is parsed, otherwise the full
`order.takerAssetAmount` is used; then converts to the maker side. -/
def normalizeApiOrder (apiOrder : APIOrder) :
    SignedOrderWithRemainingFillableMakerAssetAmount :=
  let order := apiOrder.order
  let metaDataRemainingTakerAssetAmount :=
    lodashGet apiOrder.metaData "remainingTakerAssetAmount"
  let remainingFillableTakerAssetAmount :=
    match metaDataRemainingTakerAssetAmount with
    | some s => if s = "" then order.takerAssetAmount else bigNumberOfString s
    | none => order.takerAssetAmount
  let remainingFillableMakerAssetAmount :=
    getMakerFillAmount order remainingFillableTakerAssetAmount
  { order := order
    remainingFillableMakerAssetAmount := remainingFillableMakerAssetAmount }

/-- Embedding of `StandardRelayerAPIOrderProvider._getSignedOrderWithRemainingFillableMakerAssetAmountFromApi`:
a `_.map` over the API orders. -/
def _getSignedOrderWithRemainingFillableMakerAssetAmountFromApi
    (apiOrders : List APIOrder) :
    List SignedOrderWithRemainingFillableMakerAssetAmount :=
  apiOrders.map normalizeApiOrder

/-- Well-formedness of a raw order record: non-negative maker amount, positive
taker amount, and any present, non-empty `remainingTakerAssetAmount` metadata
value parses as a non-negative integer quantity. -/
def WellFormedAPIOrder (apiOrder : APIOrder) : Prop :=
  0 ≤ apiOrder.order.makerAssetAmount ∧ 0 < apiOrder.order.takerAssetAmount ∧
  match lodashGet apiOrder.metaData "remainingTakerAssetAmount" with
  | some s => s ≠ "" → (parseBigNumber s).isSome ∧ 0 ≤ bigNumberOfString s
  | none => True

instance (apiOrder : APIOrder) : Decidable (WellFormedAPIOrder apiOrder) := by
  unfold WellFormedAPIOrder
  exact match lodashGet apiOrder.metaData "remainingTakerAssetAmount" with
    | some _ => instDecidableAnd
    | none => instDecidableAnd

/-- An `OrderProviderRequest`: the trading-pair request supplied by the caller. -/
structure OrderProviderRequest where
  makerAssetData : String
  takerAssetData : String
  deriving Repr, DecidableEq

/-- The orderbook request the adapter builds for the client. -/
structure OrderbookRequest where
  baseAssetData : String
  quoteAssetData : String
  deriving Repr, DecidableEq

/-- The per-request options attached to the orderbook lookup. -/
structure OrderbookRequestOpts where
  networkId : Int
  deriving Repr, DecidableEq

/-- One side of an `OrderbookResponse`. -/
structure PaginatedAPIOrders where
  records : List APIOrder
  deriving Repr, DecidableEq

/-- An `OrderbookResponse` from the remote service. -/
structure OrderbookResponse where
  bids : PaginatedAPIOrders
  asks : PaginatedAPIOrders
  deriving Repr, DecidableEq

/-- The adapter response for `getOrdersAsync`. -/
structure OrderProviderResponse where
  orders : List SignedOrderWithRemainingFillableMakerAssetAmount
  deriving Repr, DecidableEq

/-- Modelled from the spec: `assert.isValidOrderProviderRequest` of the
external `utils/assert` collaborator — structural validation that both asset
identifiers are present and non-empty. -/
def isValidOrderProviderRequest (request : OrderProviderRequest) : Bool :=
  request.makerAssetData ≠ "" && request.takerAssetData ≠ ""

/-- Embedding of `getOrdersAsync`.  The single awaited client call
`this._sraClient.getOrderbookAsync(orderbookRequest, requestOpts)` is embedded
by passing the client as a function whose result is the outcome of that call;
the `try`/`catch` around it maps every failure to
`SwapQuoterError.StandardRelayerApiError`. -/
def getOrdersAsync
    (sraClientGetOrderbook :
      OrderbookRequest → OrderbookRequestOpts → Except TransportFailure OrderbookResponse)
    (networkId : Int) (orderProviderRequest : OrderProviderRequest) :
    Except AdapterError OrderProviderResponse :=
  if !isValidOrderProviderRequest orderProviderRequest then
    Except.error AdapterError.invalidRequest
  else
    let orderbookRequest : OrderbookRequest :=
      { baseAssetData := orderProviderRequest.makerAssetData
        quoteAssetData := orderProviderRequest.takerAssetData }
    let requestOpts : OrderbookRequestOpts := { networkId := networkId }
    match sraClientGetOrderbook orderbookRequest requestOpts with
    | Except.error _ => Except.error AdapterError.standardRelayerApiError
    | Except.ok orderbook =>
        Except.ok
          { orders :=
              _getSignedOrderWithRemainingFillableMakerAssetAmountFromApi
                orderbook.asks.records }

/-- An asset descriptor of an asset-pairs record (only the `assetData` field is
read by the adapter). -/
structure Asset where
  assetData : String
  deriving Repr, DecidableEq

/-- One record of an `AssetPairsResponse`. -/
structure AssetPairsItem where
  assetDataA : Asset
  assetDataB : Asset
  deriving Repr, DecidableEq

/-- An `AssetPairsResponse` from the remote service. -/
structure AssetPairsResponse where
  records : List AssetPairsItem
  deriving Repr, DecidableEq

/-- The full asset-pairs request the adapter builds (`requestOpts` spread with
`assetPairsRequest`). -/
structure AssetPairsFullRequest where
  networkId : Int
  perPage : Nat
  assetDataA : String
  deriving Repr, DecidableEq

/-- Embedding of `getAvailableMakerAssetDatasAsync`.  The first component of the result is
the trace of asset-pairs requests issued to the client (the source body issues
exactly the one it builds); the second is the returned value or raised error. -/
def getAvailableMakerAssetDatasAsync
    (sraClientGetAssetPairs :
      AssetPairsFullRequest → Except TransportFailure AssetPairsResponse)
    (networkId : Int) (takerAssetData : String) :
    List AssetPairsFullRequest × Except AdapterError (List String) :=
  let maxPerPage : Nat := 1000
  let fullRequest : AssetPairsFullRequest :=
    { networkId := networkId, perPage := maxPerPage, assetDataA := takerAssetData }
  ([fullRequest],
    match sraClientGetAssetPairs fullRequest with
    | Except.error _ => Except.error AdapterError.standardRelayerApiError
    | Except.ok response =>
        Except.ok (response.records.map (fun item =>
          if item.assetDataA.assetData = takerAssetData then
            item.assetDataB.assetData
          else
            item.assetDataA.assetData)))

/-- Embedding of `getAvailableTakerAssetDatasAsync`.  Here `constants.DEFAULT_PER_PAGE` is the
configured default page size of the adapter (modelled from the spec: the
`constants` module is an external collaborator, so the default is taken as the
explicit argument `DEFAULT_PER_PAGE`).  The first component is the trace of
issued requests, as above. -/
def getAvailableTakerAssetDatasAsync
    (sraClientGetAssetPairs :
      AssetPairsFullRequest → Except TransportFailure AssetPairsResponse)
    (networkId : Int) (DEFAULT_PER_PAGE : Nat) (makerAssetData : String) :
    List AssetPairsFullRequest × Except AdapterError (List String) :=
  let fullRequest : AssetPairsFullRequest :=
    { networkId := networkId, perPage := DEFAULT_PER_PAGE, assetDataA := makerAssetData }
  ([fullRequest],
    match sraClientGetAssetPairs fullRequest with
    | Except.error _ => Except.error AdapterError.standardRelayerApiError
    | Except.ok response =>
        Except.ok (response.records.map (fun item =>
          if item.assetDataA.assetData = makerAssetData then
            item.assetDataB.assetData
          else
            item.assetDataA.assetData)))

/-- Modelled from the spec: `assert.isWebUri` of the external `utils/assert`
collaborator — the endpoint must be a syntactically valid, well-formed web URI:
an http or https scheme, no spaces, and a non-empty remainder after the
scheme. -/
def isWebUri (s : String) : Bool :=
  (s.data.take 7 = "http://".data && s.data.length > 7
    || s.data.take 8 = "https://".data && s.data.length > 8)
  && !(s.data.contains ' ')

/-- The caller-supplied `networkId : number` argument: a JS number is either a
finite number or a non-finite value (NaN, Infinity); `assert.isNumber` (by the
spec, a finiteness check) accepts exactly the finite ones.  Integer-valued
identifiers are embedded as `Int`. -/
inductive NetworkIdInput
  | finite (n : Int)
  | nonFinite
  deriving Repr, DecidableEq

/-- The constructed adapter: `apiUrl` and `networkId` are the stored readonly
fields, `sraClientUrl` is the URL the instantiated `HttpClient` is bound to. -/
structure StandardRelayerAPIOrderProvider where
  apiUrl : String
  networkId : Int
  sraClientUrl : String
  deriving Repr, DecidableEq

/-- The constructor: asserts `isWebUri apiUrl`, then asserts the network
identifier is a number, then stores both and instantiates the client.  The
first component of the result is the trace of `HttpClient` instantiations
(URLs); on a failed assertion the constructor throws before reaching
`new HttpClient(apiUrl)`, so that trace is empty. -/
def construct (apiUrl : String) (networkId : NetworkIdInput) :
    List String × Except AdapterError StandardRelayerAPIOrderProvider :=
  if !isWebUri apiUrl then
    ([], Except.error AdapterError.invalidConfiguration)
  else
    match networkId with
    | NetworkIdInput.nonFinite => ([], Except.error AdapterError.invalidConfiguration)
    | NetworkIdInput.finite n =>
        ([apiUrl],
          Except.ok { apiUrl := apiUrl, networkId := n, sraClientUrl := apiUrl })


/-- C2: for any raw order record whose metadata contains
`remainingTakerAssetAmount = "50"` and whose order has `takerAssetAmount = 100`
and `makerAssetAmount = 200`, the normalizer derives
`remainingFillableMakerAssetAmount = 100` (floor of 50 * 200 / 100), using the
metadata value in preference to the full taker amount of the order. -/
theorem c2_metadata_precedence (apiOrder : APIOrder)
    (hmeta : lodashGet apiOrder.metaData "remainingTakerAssetAmount" = some "50")
    (htaker : apiOrder.order.takerAssetAmount = 100)
    (hmaker : apiOrder.order.makerAssetAmount = 200) :
    (normalizeApiOrder apiOrder).remainingFillableMakerAssetAmount = 100 := by
  simp only [normalizeApiOrder, hmeta, getMakerFillAmount, htaker, hmaker]
  decide

/-- Witness for C2 at a concrete record. -/
theorem c2_metadata_precedence_witness :
    (normalizeApiOrder
      { order := { makerAddress := "0xmaker", makerAssetData := "0xa",
                   takerAssetData := "0xb",
                   makerAssetAmount := 200, takerAssetAmount := 100 },
        metaData := [("remainingTakerAssetAmount", "50")] }
      ).remainingFillableMakerAssetAmount = 100 :=
  c2_metadata_precedence _ (by decide) rfl rfl

/-- C3: for any raw order record whose metadata contains no
`remainingTakerAssetAmount` key, the normalizer takes the remaining taker-side
quantity to be the full `takerAssetAmount` of the order; in particular with
`takerAssetAmount = 100` and `makerAssetAmount = 50` the derived
`remainingFillableMakerAssetAmount` equals 50. -/
theorem c3_default_to_full_amount (apiOrder : APIOrder)
    (hmeta : lodashGet apiOrder.metaData "remainingTakerAssetAmount" = none) :
    (normalizeApiOrder apiOrder).remainingFillableMakerAssetAmount
        = getMakerFillAmount apiOrder.order apiOrder.order.takerAssetAmount ∧
    (apiOrder.order.takerAssetAmount = 100 → apiOrder.order.makerAssetAmount = 50 →
      (normalizeApiOrder apiOrder).remainingFillableMakerAssetAmount = 50) := by
  constructor
  · simp only [normalizeApiOrder, hmeta]
  · intro htaker hmaker
    simp only [normalizeApiOrder, hmeta, getMakerFillAmount, htaker, hmaker]
    decide

/-- Witness for C3 at a concrete record. -/
theorem c3_default_to_full_amount_witness :
    (normalizeApiOrder
      { order := { makerAddress := "0xmaker", makerAssetData := "0xa",
                   takerAssetData := "0xb",
                   makerAssetAmount := 50, takerAssetAmount := 100 },
        metaData := [] }).remainingFillableMakerAssetAmount = 50 :=
  (c3_default_to_full_amount _ (by decide)).2 rfl rfl

/-- C10: for any raw order record whose metadata contains
`remainingTakerAssetAmount` with the empty-string value, the normalizer treats
it exactly like an absent value (the JS truthiness check falls through) and
uses the full `takerAssetAmount` of the order as the remaining taker-side
quantity, rather than parsing the empty string as a number. -/
theorem c10_empty_string_metadata_is_absent (apiOrder : APIOrder)
    (hmeta : lodashGet apiOrder.metaData "remainingTakerAssetAmount" = some "") :
    (normalizeApiOrder apiOrder).remainingFillableMakerAssetAmount
        = getMakerFillAmount apiOrder.order apiOrder.order.takerAssetAmount := by
  simp [normalizeApiOrder, hmeta]

/-- Witness for C10 at a concrete record: the empty-string metadata record
normalizes exactly like the keyless record. -/
theorem c10_empty_string_metadata_is_absent_witness :
    (normalizeApiOrder
      { order := { makerAddress := "0xmaker", makerAssetData := "0xa",
                   takerAssetData := "0xb",
                   makerAssetAmount := 7, takerAssetAmount := 3 },
        metaData := [("remainingTakerAssetAmount", "")] }
      ).remainingFillableMakerAssetAmount
      = getMakerFillAmount
          { makerAddress := "0xmaker", makerAssetData := "0xa",
            takerAssetData := "0xb",
            makerAssetAmount := 7, takerAssetAmount := 3 } 3 :=
  c10_empty_string_metadata_is_absent _ (by decide)

/-- C7: normalization preserves input ordering and count — the output list has
the same length as the input, the i-th output is the normalization of the i-th
input, and the empty input yields the empty output. -/
theorem c7_order_preservation (apiOrders : List APIOrder) :
    (_getSignedOrderWithRemainingFillableMakerAssetAmountFromApi apiOrders).length
        = apiOrders.length ∧
    (∀ i, (hi : i < apiOrders.length) →
      (_getSignedOrderWithRemainingFillableMakerAssetAmountFromApi apiOrders)[i]?
        = some (normalizeApiOrder (apiOrders.get ⟨i, hi⟩))) ∧
    _getSignedOrderWithRemainingFillableMakerAssetAmountFromApi [] = [] := by
  refine ⟨List.length_map _ _, ?_, rfl⟩
  intro i hi
  simp [_getSignedOrderWithRemainingFillableMakerAssetAmountFromApi,
    List.getElem?_eq_getElem hi]

/-- Witness for C7 at a concrete two-record list. -/
theorem c7_order_preservation_witness :
    (_getSignedOrderWithRemainingFillableMakerAssetAmountFromApi
      [{ order := { makerAddress := "0xm1", makerAssetData := "0xa",
                    takerAssetData := "0xb",
                    makerAssetAmount := 200, takerAssetAmount := 100 },
         metaData := [("remainingTakerAssetAmount", "50")] },
       { order := { makerAddress := "0xm2", makerAssetData := "0xc",
                    takerAssetData := "0xd",
                    makerAssetAmount := 50, takerAssetAmount := 100 },
         metaData := [] }])[1]?
      = some (normalizeApiOrder
          { order := { makerAddress := "0xm2", makerAssetData := "0xc",
                       takerAssetData := "0xd",
                       makerAssetAmount := 50, takerAssetAmount := 100 },
            metaData := [] }) :=
  (c7_order_preservation _).2.1 1 (by decide)

/-- Helper for C1: one well-formed record normalizes to a non-negative
remaining fillable maker amount. -/
theorem normalizeApiOrder_nonneg (apiOrder : APIOrder)
    (h : WellFormedAPIOrder apiOrder) :
    0 ≤ (normalizeApiOrder apiOrder).remainingFillableMakerAssetAmount := by
  obtain ⟨hm, ht, hmeta⟩ := h
  have hproj : (normalizeApiOrder apiOrder).remainingFillableMakerAssetAmount
      = getMakerFillAmount apiOrder.order
          (match lodashGet apiOrder.metaData "remainingTakerAssetAmount" with
            | some s =>
                if s = "" then apiOrder.order.takerAssetAmount else bigNumberOfString s
            | none => apiOrder.order.takerAssetAmount) := rfl
  rw [hproj, getMakerFillAmount]
  apply Int.fdiv_nonneg _ (le_of_lt ht)
  apply mul_nonneg _ hm
  cases hl : lodashGet apiOrder.metaData "remainingTakerAssetAmount" with
  | none => exact le_of_lt ht
  | some s =>
      simp only [hl] at hmeta ⊢
      by_cases hs : s = ""
      · simp only [hs, if_pos rfl]
        exact le_of_lt ht
      · simp only [if_neg hs]
        exact (hmeta hs).2

/-- C1: for every well-formed list of raw order records, every canonical order
the normalizer produces carries a defined, non-negative
`remainingFillableMakerAssetAmount` (one output per input, the field never
undefined). -/
theorem c1_normalization_totality (apiOrders : List APIOrder)
    (hwf : ∀ apiOrder ∈ apiOrders, WellFormedAPIOrder apiOrder) :
    (_getSignedOrderWithRemainingFillableMakerAssetAmountFromApi apiOrders).length
        = apiOrders.length ∧
    ∀ canonical ∈ _getSignedOrderWithRemainingFillableMakerAssetAmountFromApi apiOrders,
      0 ≤ canonical.remainingFillableMakerAssetAmount := by
  refine ⟨List.length_map _ _, ?_⟩
  intro canonical hmem
  rw [_getSignedOrderWithRemainingFillableMakerAssetAmountFromApi, List.mem_map] at hmem
  obtain ⟨apiOrder, hin, rfl⟩ := hmem
  exact normalizeApiOrder_nonneg apiOrder (hwf apiOrder hin)

/-- Witness for C1: the first canonical order of a concrete two-record list has
a non-negative remaining fillable maker amount. -/
theorem c1_normalization_totality_witness :
    0 ≤ (normalizeApiOrder
      { order := { makerAddress := "0xm1", makerAssetData := "0xa",
                   takerAssetData := "0xb",
                   makerAssetAmount := 200, takerAssetAmount := 100 },
        metaData := [("remainingTakerAssetAmount", "50")] }
      ).remainingFillableMakerAssetAmount :=
  (c1_normalization_totality
    [{ order := { makerAddress := "0xm1", makerAssetData := "0xa",
                  takerAssetData := "0xb",
                  makerAssetAmount := 200, takerAssetAmount := 100 },
       metaData := [("remainingTakerAssetAmount", "50")] },
     { order := { makerAddress := "0xm2", makerAssetData := "0xc",
                  takerAssetData := "0xd",
                  makerAssetAmount := 50, takerAssetAmount := 100 },
       metaData := [] }] (by decide)).2 _
    (List.mem_map_of_mem normalizeApiOrder (List.mem_cons_self _ _))

/-- C4: every failure of the underlying remote call — in the order-book lookup
of `getOrdersAsync` or in either asset-pair lookup — surfaces as exactly the
single domain error `standardRelayerApiError`, whatever the transport cause;
the error value carries no payload, so the original cause is not exposed. -/
theorem c4_uniform_failure_mapping (cause : TransportFailure) (networkId : Int)
    (DEFAULT_PER_PAGE : Nat) (request : OrderProviderRequest) (assetData : String)
    (hvalid : isValidOrderProviderRequest request = true) :
    getOrdersAsync (fun _ _ => Except.error cause) networkId request
        = Except.error AdapterError.standardRelayerApiError ∧
    (getAvailableMakerAssetDatasAsync (fun _ => Except.error cause)
        networkId assetData).2
        = Except.error AdapterError.standardRelayerApiError ∧
    (getAvailableTakerAssetDatasAsync (fun _ => Except.error cause)
        networkId DEFAULT_PER_PAGE assetData).2
        = Except.error AdapterError.standardRelayerApiError := by
  refine ⟨?_, rfl, rfl⟩
  unfold getOrdersAsync
  rw [hvalid]
  rfl

/-- Witness for C4 at a concrete cause and request. -/
theorem c4_uniform_failure_mapping_witness :
    getOrdersAsync (fun _ _ => Except.error (TransportFailure.httpStatus 500)) 1
        { makerAssetData := "0xa", takerAssetData := "0xb" }
        = Except.error AdapterError.standardRelayerApiError ∧
    (getAvailableMakerAssetDatasAsync
        (fun _ => Except.error (TransportFailure.httpStatus 500)) 1 "0xa").2
        = Except.error AdapterError.standardRelayerApiError ∧
    (getAvailableTakerAssetDatasAsync
        (fun _ => Except.error (TransportFailure.httpStatus 500)) 1 20 "0xa").2
        = Except.error AdapterError.standardRelayerApiError :=
  c4_uniform_failure_mapping (TransportFailure.httpStatus 500) 1 20
    { makerAssetData := "0xa", takerAssetData := "0xb" } "0xa" (by decide)

/-- C5: for every returned asset-pair record whose side A identifier is `X` and
whose side B identifier is `Y` with `X ≠ Y`, pair discovery queried with `X`
yields `Y` in the result list and queried with `Y` yields `X`, in both
discovery directions. -/
theorem c5_pair_symmetry (networkId : Int) (DEFAULT_PER_PAGE : Nat) (X Y : String)
    (response : AssetPairsResponse) (item : AssetPairsItem)
    (hmem : item ∈ response.records)
    (hA : item.assetDataA.assetData = X) (hB : item.assetDataB.assetData = Y)
    (hne : X ≠ Y) :
    (∃ resultX,
      (getAvailableMakerAssetDatasAsync (fun _ => Except.ok response) networkId X).2
          = Except.ok resultX ∧ Y ∈ resultX) ∧
    (∃ resultY,
      (getAvailableMakerAssetDatasAsync (fun _ => Except.ok response) networkId Y).2
          = Except.ok resultY ∧ X ∈ resultY) ∧
    (∃ resultX,
      (getAvailableTakerAssetDatasAsync (fun _ => Except.ok response)
          networkId DEFAULT_PER_PAGE X).2
          = Except.ok resultX ∧ Y ∈ resultX) ∧
    (∃ resultY,
      (getAvailableTakerAssetDatasAsync (fun _ => Except.ok response)
          networkId DEFAULT_PER_PAGE Y).2
          = Except.ok resultY ∧ X ∈ resultY) := by
  have hAY : item.assetDataA.assetData ≠ Y := by rw [hA]; exact hne
  refine ⟨⟨_, rfl, ?_⟩, ⟨_, rfl, ?_⟩, ⟨_, rfl, ?_⟩, ⟨_, rfl, ?_⟩⟩ <;>
    refine List.mem_map.mpr ⟨item, hmem, ?_⟩
  · rw [if_pos hA, hB]
  · rw [if_neg hAY, hA]
  · rw [if_pos hA, hB]
  · rw [if_neg hAY, hA]

/-- Witness for C5 at a concrete one-record response. -/
theorem c5_pair_symmetry_witness :
    ∃ resultX,
      (getAvailableMakerAssetDatasAsync
        (fun _ => Except.ok { records := [{ assetDataA := { assetData := "X" },
                                            assetDataB := { assetData := "Y" } }] })
        1 "X").2 = Except.ok resultX ∧ "Y" ∈ resultX :=
  (c5_pair_symmetry 1 20 "X" "Y"
    { records := [{ assetDataA := { assetData := "X" },
                    assetDataB := { assetData := "Y" } }] }
    { assetDataA := { assetData := "X" }, assetDataB := { assetData := "Y" } }
    (by decide) rfl rfl (by decide)).1

/-- C6: for a returned asset-pair record in which neither side identifier
equals the query identifier, pair discovery does not fail — it succeeds and
returns the side A identifier of that record as a defined fallback. -/
theorem c6_no_match_fallback (networkId : Int) (query : String)
    (response : AssetPairsResponse) (i : Nat) (hi : i < response.records.length)
    (hA : (response.records.get ⟨i, hi⟩).assetDataA.assetData ≠ query)
    (_hB : (response.records.get ⟨i, hi⟩).assetDataB.assetData ≠ query) :
    ∃ result,
      (getAvailableMakerAssetDatasAsync (fun _ => Except.ok response) networkId query).2
          = Except.ok result ∧
      result[i]? = some (response.records.get ⟨i, hi⟩).assetDataA.assetData := by
  refine ⟨_, rfl, ?_⟩
  rw [List.getElem?_map, List.getElem?_eq_getElem hi]
  simp [hA]
  intro h
  exact absurd h hA

/-- Witness for C6 at a concrete one-record response where neither side
matches the query. -/
theorem c6_no_match_fallback_witness :
    ∃ result,
      (getAvailableMakerAssetDatasAsync
        (fun _ => Except.ok { records := [{ assetDataA := { assetData := "A" },
                                            assetDataB := { assetData := "B" } }] })
        1 "Z").2 = Except.ok result ∧
      result[0]? = some "A" :=
  c6_no_match_fallback 1 "Z"
    { records := [{ assetDataA := { assetData := "A" },
                    assetDataB := { assetData := "B" } }] }
    0 (by decide) (by decide) (by decide)

/-- C8: each base-asset-direction discovery call issues exactly one asset-pairs
request, with `perPage = 1000`, and never aggregates further pages; each
quote-asset-direction call issues exactly one request with the configured
default page size. -/
theorem c8_page_size_contract
    (clientA clientB : AssetPairsFullRequest → Except TransportFailure AssetPairsResponse)
    (networkId : Int) (DEFAULT_PER_PAGE : Nat)
    (takerAssetData makerAssetData : String) :
    (getAvailableMakerAssetDatasAsync clientA networkId takerAssetData).1
        = [{ networkId := networkId, perPage := 1000, assetDataA := takerAssetData }] ∧
    (getAvailableTakerAssetDatasAsync clientB networkId DEFAULT_PER_PAGE
        makerAssetData).1
        = [{ networkId := networkId, perPage := DEFAULT_PER_PAGE,
             assetDataA := makerAssetData }] :=
  ⟨rfl, rfl⟩

/-- C9: constructing the adapter with an endpoint that is not a well-formed web
URI, or a network identifier that is not a (finite) number, fails with
`invalidConfiguration` and instantiates no client; on success both values are
stored and the client is bound to the endpoint URL. -/
theorem c9_construction_validation (networkId : NetworkIdInput)
    (apiUrl : String) (n : Int) (hvalid : isWebUri apiUrl = true) :
    construct "not a url" networkId
        = ([], Except.error AdapterError.invalidConfiguration) ∧
    construct apiUrl NetworkIdInput.nonFinite
        = ([], Except.error AdapterError.invalidConfiguration) ∧
    construct apiUrl (NetworkIdInput.finite n)
        = ([apiUrl],
            Except.ok { apiUrl := apiUrl, networkId := n, sraClientUrl := apiUrl }) := by
  have hbad : isWebUri "not a url" = false := by decide
  refine ⟨?_, ?_, ?_⟩
  · simp [construct, hbad]
  · simp [construct, hvalid]
  · simp [construct, hvalid]

/-- Witness for C9 at a concrete endpoint and network identifier. -/
theorem c9_construction_validation_witness :
    construct "not a url" (NetworkIdInput.finite 42)
        = ([], Except.error AdapterError.invalidConfiguration) ∧
    construct "https://api.example.com" (NetworkIdInput.finite 42)
        = (["https://api.example.com"],
            Except.ok { apiUrl := "https://api.example.com", networkId := 42,
                        sraClientUrl := "https://api.example.com" }) :=
  ⟨(c9_construction_validation (NetworkIdInput.finite 42) "https://api.example.com" 42
      (by decide)).1,
   (c9_construction_validation (NetworkIdInput.finite 42) "https://api.example.com" 42
      (by decide)).2.2⟩

end SRAOrderProvider
